import Mathlib

/-!
Shallow embedding of the authentication core of madfam-org/claudecodeui:
`server/utils/janua-client.js` (federated identity client),
`server/middleware/auth.js` (session token codec and authorization
middleware) and `server/routes/janua-auth.js` (auth orchestrator: login,
callback, logout, status routes).  Stateful code is embedded as explicit
state passing; network calls are parameters describing the upstream
outcome; JavaScript string truthiness is modelled explicitly.
-/

namespace ClaudeCodeUI

/-- JavaScript truthiness of an optional string: `undefined` and the empty
string are falsy, every other string is truthy. -/
def truthy : Option String → Bool
  | none => false
  | some s => !(s.isEmpty)

/-- JavaScript `a || b` on optional strings: yields `a` when `a` is truthy,
otherwise `b`. -/
def jsOr (a b : Option String) : Option String :=
  if truthy a then a else b

/-- JavaScript `(a || d)` where `d` is a (truthy) string literal default. -/
def jsOrDefault (a : Option String) (d : String) : String :=
  (jsOr a (some d)).getD ""

/-- JS `String.prototype.split` with a one-character separator: splits at
every occurrence, preserving empty pieces (`"a,,b"` → `["a","","b"]`,
`""` → `[""]`). -/
def jsSplit (sep : Char) (s : String) : List String :=
  (s.toList.foldr
    (fun c acc =>
      match acc with
      | [] => [[c]]
      | h :: t => if c = sep then [] :: h :: t else (c :: h) :: t)
    [[]]).map String.mk

/-- JS `String.prototype.trim`: strips leading and trailing whitespace. -/
def jsTrim (s : String) : String :=
  String.mk (((s.toList.dropWhile Char.isWhitespace).reverse.dropWhile
    Char.isWhitespace).reverse)

/-- JS `String.prototype.toLowerCase` (ASCII case mapping). -/
def jsToLower (s : String) : String :=
  String.mk (s.toList.map Char.toLower)

/-- Parse a string of decimal digits, `none` on empty or non-digit input
(model of the claim deserialization inside `jwt.verify`). -/
def parseNat? (s : String) : Option Nat :=
  if s.isEmpty then none
  else
    s.toList.foldl
      (fun acc c => acc.bind (fun n => if c.isDigit then some (n * 10 + (c.toNat - 48)) else none))
      (some 0)

/-- Upper-case hexadecimal digit for `n < 16`. -/
def hexDigit (n : Nat) : Char :=
  if n < 10 then Char.ofNat (48 + n) else Char.ofNat (55 + n)

/-- UTF-8 byte sequence of a Unicode code point, as natural numbers. -/
def utf8Bytes (n : Nat) : List Nat :=
  if n < 0x80 then [n]
  else if n < 0x800 then [0xC0 + n / 64, 0x80 + n % 64]
  else if n < 0x10000 then [0xE0 + n / 4096, 0x80 + (n / 64) % 64, 0x80 + n % 64]
  else [0xF0 + n / 262144, 0x80 + (n / 4096) % 64, 0x80 + (n / 64) % 64, 0x80 + n % 64]

/-- Percent-encoding of one byte, upper-case hex as in JS `encodeURIComponent`. -/
def percentByte (b : Nat) : String :=
  "%" ++ String.singleton (hexDigit (b / 16)) ++ String.singleton (hexDigit (b % 16))

/-- Characters `encodeURIComponent` leaves unescaped:
`A-Z a-z 0-9 - _ . ! ~ * ' ( )`. -/
def uriUnreserved (c : Char) : Bool :=
  c.isAlphanum || c = Char.ofNat 45 || c = Char.ofNat 95 || c = Char.ofNat 46 ||
  c = Char.ofNat 33 || c = Char.ofNat 126 || c = Char.ofNat 42 || c = Char.ofNat 39 ||
  c = Char.ofNat 40 || c = Char.ofNat 41

/-- JS `encodeURIComponent` applied to one character. -/
def encodeUriChar (c : Char) : String :=
  if uriUnreserved c then String.singleton c
  else String.join ((utf8Bytes c.toNat).map percentByte)

/-- JS `encodeURIComponent`. -/
def encodeURIComponent (s : String) : String :=
  String.join (s.toList.map encodeUriChar)

/-- One character under `application/x-www-form-urlencoded` serialization
(as used by JS `URLSearchParams.toString()`): space becomes `+`,
alphanumerics and `* - . _` are kept, everything else is percent-encoded. -/
def formEncodeChar (c : Char) : String :=
  if c = Char.ofNat 32 then "+"
  else if c.isAlphanum || c = Char.ofNat 42 || c = Char.ofNat 45 ||
      c = Char.ofNat 46 || c = Char.ofNat 95 then String.singleton c
  else String.join ((utf8Bytes c.toNat).map percentByte)

/-- `application/x-www-form-urlencoded` serialization of a string. -/
def formEncode (s : String) : String :=
  String.join (s.toList.map formEncodeChar)

/-- JS `URLSearchParams(...).toString()`: `k=v` pairs joined by `&`,
keys and values form-encoded, insertion order preserved. -/
def urlSearchParams (ps : List (String × String)) : String :=
  String.intercalate "&" (ps.map (fun p => formEncode p.1 ++ "=" ++ formEncode p.2))

/-- Decidable substring test: `needle` occurs contiguously in `hay`. -/
def strContains (hay needle : String) : Bool :=
  (List.range (hay.length + 1)).any
    (fun i => decide (((hay.toList.drop i).take needle.length) = needle.toList))

/-! ## Federated Identity Client — `server/utils/janua-client.js`

The constructor reads `JANUA_URL`, `JANUA_CLIENT_ID`, `JANUA_CLIENT_SECRET`
and `JANUA_REDIRECT_URI` from the environment; an unset variable is
`undefined`, modelled as `none`. -/

structure JanuaConfig where
  januaUrl : String
  clientId : Option String
  clientSecret : Option String
  redirectUri : String
deriving Repr, DecidableEq

/-- The client as constructed from environment variables, with the source's
defaults for `JANUA_URL` and `JANUA_REDIRECT_URI`. -/
def mkJanuaClient (url clientId clientSecret redirect : Option String) : JanuaConfig :=
  ⟨jsOrDefault url "https://auth.madfam.io", clientId, clientSecret,
   jsOrDefault redirect "https://agents.madfam.io/auth/callback"⟩

/-- JS string interpolation of a possibly-`undefined` value. -/
def optToStr : Option String → String
  | none => "undefined"
  | some s => s

/-- `isConfigured()`: `!!(this.clientId && this.clientSecret)`. -/
def isConfigured (cfg : JanuaConfig) : Bool :=
  truthy cfg.clientId && truthy cfg.clientSecret

/-- `getAuthorizationUrl(state)`: builds the provider authorization URL from
a `URLSearchParams` over `client_id`, `redirect_uri`, `response_type`,
`scope` and `state`.  The source performs no configuration check here. -/
def getAuthorizationUrl (cfg : JanuaConfig) (state : String) : String :=
  cfg.januaUrl ++ "/api/v1/oauth/authorize?" ++
    urlSearchParams
      [("client_id", optToStr cfg.clientId),
       ("redirect_uri", cfg.redirectUri),
       ("response_type", "code"),
       ("scope", "openid profile email agent:view agent:control"),
       ("state", state)]

/-- Token endpoint response body, as destructured by the callback route. -/
structure TokenResponse where
  access_token : String
  id_token : Option String
deriving Repr, DecidableEq

/-- Userinfo endpoint response body, as used by the callback route. -/
structure UserInfo where
  sub : String
  email : Option String
  name : Option String
deriving Repr, DecidableEq

/-- Outcome of an upstream `fetch`: a successful HTTP response with parsed
JSON, a non-success HTTP response whose body text is read, or a rejected
fetch (network failure) carrying the rejection's message. -/
inductive FetchOutcome (α : Type) where
  | ok (value : α)
  | httpError (body : String)
  | networkError (msg : String)
deriving Repr, DecidableEq

/-- `exchangeCodeForToken`: on a non-ok response it throws
`Token exchange failed: <body>`; a rejected fetch propagates unchanged. -/
def exchangeCodeForToken : FetchOutcome TokenResponse → Except String TokenResponse
  | .ok v => .ok v
  | .httpError body => .error ("Token exchange failed: " ++ body)
  | .networkError msg => .error msg

/-- `getUserInfo`: on a non-ok response it throws
`Failed to get user info: <body>`; a rejected fetch propagates unchanged. -/
def getUserInfo : FetchOutcome UserInfo → Except String UserInfo
  | .ok v => .ok v
  | .httpError body => .error ("Failed to get user info: " ++ body)
  | .networkError msg => .error msg

/-! ## Credential Store — `server/database/db.js` -/

/-- Modelled from the spec: the Credential Store module
`server/database/db.js` is not among the sources, only its callers.  Per
the spec's data model a user record carries an opaque stable unique `id`,
a unique `username`, a nullable `passwordHash` (null for federated-only
accounts), `email`, a display name, provider linkage and `lastLoginAt`. -/
structure DbUser where
  id : Nat
  username : String
  passwordHash : Option String
  email : Option String
  name : Option String
  oauthProvider : Option String
  oauthUserId : Option String
  lastLoginAt : Option Nat
deriving Repr, DecidableEq

/-- Modelled from the spec: the Credential Store persists user records;
`nextId` generates fresh opaque stable ids. -/
structure UserStore where
  users : List DbUser
  nextId : Nat
deriving Repr, DecidableEq

/-- Modelled from the spec: `userDb.getUserByUsername` — lookup by the
unique username. -/
def getUserByUsername (s : UserStore) (u : String) : Option DbUser :=
  s.users.find? (fun x => x.username = u)

/-- Modelled from the spec: `userDb.getUserById` — lookup by the opaque id. -/
def getUserById (s : UserStore) (i : Nat) : Option DbUser :=
  s.users.find? (fun x => x.id = i)

/-- Modelled from the spec: `userDb.getFirstUser` — the single account used
by platform mode. -/
def getFirstUser (s : UserStore) : Option DbUser :=
  s.users.head?

/-- Modelled from the spec: `userDb.createUser(username, password, meta)` —
inserts a fresh record with a fresh id and returns it. -/
def createUser (s : UserStore) (username : String) (pw : Option String)
    (email name provider oauthId : Option String) : DbUser × UserStore :=
  let u : DbUser := ⟨s.nextId, username, pw, email, name, provider, oauthId, none⟩
  (u, ⟨s.users ++ [u], s.nextId + 1⟩)

/-- Modelled from the spec: `userDb.updateLastLogin(id)` — sets
`lastLoginAt` on the record with that id. -/
def updateLastLogin (s : UserStore) (i : Nat) (now : Nat) : UserStore :=
  ⟨s.users.map (fun u => if u.id = i then { u with lastLoginAt := some now } else u),
   s.nextId⟩

/-! ## Session Token Codec and Authorization Middleware —
`server/middleware/auth.js`

`jwt.sign` / `jwt.verify` are modelled as a MAC-style codec: a serialized
claim set plus a signature component that verifies iff it equals the
server-held secret, with expiry checked against the clock. -/

/-- The claims `generateToken` signs: `userId` and `username`, plus the
expiration `jsonwebtoken` derives from `expiresIn`. -/
structure JwtClaims where
  userId : Nat
  username : String
  exp : Nat
deriving Repr, DecidableEq

/-- Model of `jwt.sign`: serialize the claims together with a signature
component derived from the secret. -/
def signToken (secret : String) (c : JwtClaims) : String :=
  toString c.userId ++ "." ++ c.username ++ "." ++ toString c.exp ++ "." ++ secret

/-- Model of `jwt.verify`: parse the serialized claims, require the
signature component to match the secret and the token to be unexpired. -/
def jwtVerify (secret : String) (now : Nat) (tok : String) : Option JwtClaims :=
  match jsSplit (Char.ofNat 46) tok with
  | [u, n, e, m] =>
    match parseNat? u, parseNat? e with
    | some uid, some exp =>
      if m = secret ∧ now < exp then some ⟨uid, n, exp⟩ else none
    | _, _ => none
  | _ => none

/-- `JWT_EXPIRATION` default `8h`, in seconds. -/
def jwtLifetime : Nat := 8 * 60 * 60

/-- `generateToken(user)`: signs `{userId, username}` with the server
secret and the configured expiration window. -/
def generateToken (secret : String) (now : Nat) (u : DbUser) : String :=
  signToken secret ⟨u.id, u.username, now + jwtLifetime⟩

/-- Environment of the middleware: platform-mode flags and the signing
secret. -/
structure AuthEnv where
  platformMode : Bool
  production : Bool
  allowPlatformMode : Bool
  jwtSecret : String
deriving Repr, DecidableEq

/-- Result of the middleware: either the request proceeds with a resolved
user (`next()` with `req.user` set), or it is rejected with an HTTP status
and an error message. -/
inductive AuthResult where
  | ok (user : DbUser)
  | reject (status : Nat) (error : String)
deriving Repr, DecidableEq

/-- `authHeader && authHeader.split(' ')[1]` — the extracted bearer token;
`none` when the header is absent, falsy, or has no second blank-separated
component. -/
def extractToken (h : Option String) : Option String :=
  match h with
  | none => none
  | some s => if s.isEmpty then none else (jsSplit (Char.ofNat 32) s)[1]?

/-- `authenticateToken` from `server/middleware/auth.js`: platform-mode
branch first, then bearer extraction (missing token → 401), `jwt.verify`
(failure → 403), then re-resolution of the user id against the Credential
Store (missing user → 401). -/
def authenticateToken (env : AuthEnv) (now : Nat) (users : UserStore)
    (authHeader : Option String) : AuthResult :=
  if env.platformMode then
    if env.production ∧ ¬ env.allowPlatformMode then
      .reject 403 "Platform mode is disabled in production. Set ALLOW_PLATFORM_MODE=true to enable."
    else
      match getFirstUser users with
      | none => .reject 500 "Platform mode: No user found in database"
      | some u => .ok u
  else
    let token := extractToken authHeader
    if truthy token = false then
      .reject 401 "Access denied. No token provided."
    else
      match jwtVerify env.jwtSecret now (token.getD "") with
      | none => .reject 403 "Invalid token"
      | some decoded =>
        match getUserById users decoded.userId with
        | none => .reject 401 "Invalid token. User not found."
        | some u => .ok u

/-! ## Auth Orchestrator — `server/routes/janua-auth.js`

The module-level `oauthStates` map is embedded as an association list from
state token to stored `expiresAt`; every route takes the map and returns
the updated one. -/

/-- The `oauthStates` CSRF registry: state token ↦ `{ expiresAt }`. -/
abbrev StateStore : Type := List (String × Nat)

/-- `oauthStates.get(state)`. -/
def getState (m : StateStore) (k : String) : Option Nat :=
  List.lookup k m

/-- `oauthStates.set(state, v)` — JS `Map.set` replaces any existing entry. -/
def setState (m : StateStore) (k : String) (v : Nat) : StateStore :=
  (k, v) :: m.filter (fun p => p.1 ≠ k)

/-- `oauthStates.delete(state)`. -/
def deleteState (m : StateStore) (k : String) : StateStore :=
  m.filter (fun p => p.1 ≠ k)

/-- Response of the login-initiation route: the 500 configuration-error
JSON, or a redirect to the provider's authorization URL. -/
inductive LoginResult where
  | configError (error hint : String)
  | redirect (url : String)
deriving Repr, DecidableEq

/-- `router.get('/login')`: rejects with a 500 configuration error when the
client is unconfigured; otherwise records the freshly generated `state`
with a 10-minute expiry and redirects to `getAuthorizationUrl(state)`.
The random state token is a parameter. -/
def loginRoute (cfg : JanuaConfig) (stateTok : String) (now : Nat)
    (states : StateStore) : LoginResult × StateStore :=
  if isConfigured cfg = false then
    (.configError "Janua OAuth2 not configured"
      "Set JANUA_CLIENT_ID and JANUA_CLIENT_SECRET environment variables", states)
  else
    let expiresAt := now + 10 * 60 * 1000
    (.redirect (getAuthorizationUrl cfg stateTok), setState states stateTok expiresAt)

/-- Query parameters destructured by the callback route. -/
structure CbQuery where
  code : Option String
  state : Option String
  error : Option String
  error_description : Option String
deriving Repr, DecidableEq

/-- Full outcome of one callback request: the redirect issued, the updated
state registry and user store, whether control reached the token-exchange
call, the session token issued (if any), the local account the callback
resolved to (if any), and whether that account was newly created. -/
structure CbResult where
  redirect : String
  states : StateStore
  users : UserStore
  exchangeAttempted : Bool
  tokenIssued : Option String
  resolvedUser : Option DbUser
  createdUser : Bool
deriving Repr, DecidableEq

/-- A callback outcome that leaves both stores untouched and never reaches
the token exchange. -/
def cbReject (redirect : String) (states : StateStore) (users : UserStore) : CbResult :=
  ⟨redirect, states, users, false, none, none, false⟩

/-- The allow-list computed by the callback route:
`(JANUA_ALLOWED_EMAILS || 'admin@madfam.io').split(',').map(e => e.trim().toLowerCase())`. -/
def allowedEmailsList (envVar : Option String) : List String :=
  (jsSplit (Char.ofNat 44) (jsOrDefault envVar "admin@madfam.io")).map
    (fun e => jsToLower (jsTrim e))

/-- The profile email as compared by the callback route:
`(userInfo.email || '').toLowerCase()`. -/
def profileEmail (email : Option String) : String :=
  jsToLower (jsOrDefault email "")

/-- The allow-list gate of the callback route:
`allowedEmails.includes(userEmail)`. -/
def emailAllowed (envVar : Option String) (email : Option String) : Bool :=
  (allowedEmailsList envVar).contains (profileEmail email)

/-- `router.get('/callback')`: provider-error branch, parameter validation,
CSRF state verification with passive expiry, state deletion, then the
`try` block — code exchange, profile fetch, allow-list gate, user
lookup-or-create keyed by `userInfo.sub`, session token issuance — whose
`catch` redirects with the thrown error's message.  The upstream fetch
outcomes and the clock are parameters; `allowedEnv` is
`JANUA_ALLOWED_EMAILS` and `secret` is `JWT_SECRET`. -/
def callback (allowedEnv : Option String) (secret : String) (now : Nat)
    (q : CbQuery) (exch : FetchOutcome TokenResponse) (uinfo : FetchOutcome UserInfo)
    (states : StateStore) (users : UserStore) : CbResult :=
  if truthy q.error then
    cbReject ("/?error=" ++ encodeURIComponent (optToStr (jsOr q.error_description q.error)))
      states users
  else if truthy q.code = false ∨ truthy q.state = false then
    cbReject "/?error=missing_parameters" states users
  else
    let st := q.state.getD ""
    match getState states st with
    | none => cbReject "/?error=invalid_state" states users
    | some expiresAt =>
      if expiresAt < now then
        cbReject "/?error=state_expired" (deleteState states st) users
      else
        let states' := deleteState states st
        match exchangeCodeForToken exch with
        | .error msg =>
          ⟨"/?error=" ++ encodeURIComponent msg, states', users, true, none, none, false⟩
        | .ok tokenResponse =>
          match getUserInfo uinfo with
          | .error msg =>
            ⟨"/?error=" ++ encodeURIComponent msg, states', users, true, none, none, false⟩
          | .ok userInfo =>
            let _accessToken := tokenResponse.access_token
            if emailAllowed allowedEnv userInfo.email = false then
              ⟨"/?error=" ++ encodeURIComponent
                  "Access denied. Your email is not authorized to use this application.",
                states', users, true, none, none, false⟩
            else
              match getUserByUsername users userInfo.sub with
              | none =>
                let created := createUser users userInfo.sub none userInfo.email
                  userInfo.name (some "janua") (some userInfo.sub)
                let sessionToken := generateToken secret now created.1
                ⟨"/?token=" ++ (sessionToken ++ "&oauth=janua"), states', created.2,
                  true, some sessionToken, some created.1, true⟩
              | some user =>
                let users' := updateLastLogin users user.id now
                let sessionToken := generateToken secret now user
                ⟨"/?token=" ++ (sessionToken ++ "&oauth=janua"), states', users',
                  true, some sessionToken, some user, false⟩

/-- Response of the logout route, together with whether a revocation was
attempted and the swallowed revocation error (logged only). -/
structure LogoutRes where
  success : Bool
  message : String
  revocationAttempted : Bool
  revocationError : Option String
deriving Repr, DecidableEq

/-- `router.post('/logout')`: extracts the bearer token; when a token is
present and the client is configured, attempts revocation, swallowing any
failure; always responds `{ success: true, message: 'Logged out successfully' }`. -/
def logout (cfg : JanuaConfig) (revokeResult : Except String Unit)
    (authHeader : Option String) : LogoutRes :=
  let token := extractToken authHeader
  if truthy token && isConfigured cfg then
    match revokeResult with
    | .ok _ => ⟨true, "Logged out successfully", true, none⟩
    | .error e => ⟨true, "Logged out successfully", true, some e⟩
  else
    ⟨true, "Logged out successfully", false, none⟩

/-- `/status` route: reports whether federated auth is configured and the
provider base URL. -/
def statusRoute (cfg : JanuaConfig) : Bool × String :=
  (isConfigured cfg, cfg.januaUrl)

/-- Whether a callback redirect carries an error indicator in the query
string, i.e. starts with `/?error=`. -/
def errRedirect (r : String) : Bool :=
  r.toList.take 8 = "/?error=".toList

/-! ## Helper lemmas -/

theorem getState_delete_self (m : StateStore) (k : String) :
    getState (deleteState m k) k = none := by
  induction m with
  | nil => rfl
  | cons p t ih =>
    by_cases h : p.1 = k
    · simpa [deleteState, getState, List.filter_cons, h] using ih
    · have hbeq : (k == p.1) = false := by
        simpa using Ne.symm h
      simpa [deleteState, getState, List.filter_cons, h, List.lookup, hbeq] using ih

theorem truthy_some_iff (s : String) : truthy (some s) = true ↔ s ≠ "" := by
  simp [truthy, Bool.eq_false_iff, String.isEmpty_iff]

theorem getUserByUsername_username {s : UserStore} {n : String} {u : DbUser}
    (h : getUserByUsername s n = some u) : u.username = n := by
  have := List.find?_some h
  simpa using this

theorem isEmpty_false_of_ne (r : String) (h : r ≠ "") : r.isEmpty = false := by
  rw [Bool.eq_false_iff]
  intro hb
  exact h ((String.isEmpty_iff r).mp hb)

theorem profileEmail_some (r : String) : profileEmail (some r) = jsToLower r := by
  by_cases h : r = ""
  · subst h; rfl
  · simp [profileEmail, jsOrDefault, jsOr, truthy, isEmpty_false_of_ne r h]

theorem errRedirect_append (s : String) : errRedirect ("/?error=" ++ s) = true := by
  have hlen : ("/?error=".toList).length = 8 := by decide
  have h2 : ("/?error=" ++ s).toList = "/?error=".toList ++ s.toList := String.data_append _ _
  unfold errRedirect
  rw [h2, List.take_left' hlen]
  simp

theorem errRedirect_missing : errRedirect "/?error=missing_parameters" = true := by decide

theorem errRedirect_invalid : errRedirect "/?error=invalid_state" = true := by decide

theorem errRedirect_expired : errRedirect "/?error=state_expired" = true := by decide

theorem errRedirect_token (s : String) : errRedirect ("/?token=" ++ s) = false := by
  have hlen : ("/?token=".toList).length = 8 := by decide
  have h2 : ("/?token=" ++ s).toList = "/?token=".toList ++ s.toList := String.data_append _ _
  unfold errRedirect
  rw [h2, List.take_left' hlen]
  decide

/-! ## Claims -/

/-- C1: a state token issued by the login route and still unexpired passes
the CSRF check on its first callback (the token exchange is reached) and
is removed from the state store; a second callback presenting the same
token is rejected with the `invalid_state` CSRF error redirect and never
reaches the token exchange. -/
theorem state_token_single_use
    (allowedEnv : Option String) (secret : String) (now₁ now₂ : Nat) (q : CbQuery)
    (exch₁ exch₂ : FetchOutcome TokenResponse) (uinfo₁ uinfo₂ : FetchOutcome UserInfo)
    (states : StateStore) (users₁ users₂ : UserStore) (e : Nat)
    (herr : truthy q.error = false)
    (hcode : truthy q.code = true)
    (hstate : truthy q.state = true)
    (hpresent : getState states (q.state.getD "") = some e)
    (hfresh : ¬ e < now₁) :
    (callback allowedEnv secret now₁ q exch₁ uinfo₁ states users₁).exchangeAttempted = true ∧
    getState (callback allowedEnv secret now₁ q exch₁ uinfo₁ states users₁).states
      (q.state.getD "") = none ∧
    (callback allowedEnv secret now₂ q exch₂ uinfo₂
      (callback allowedEnv secret now₁ q exch₁ uinfo₁ states users₁).states users₂).redirect
      = "/?error=invalid_state" ∧
    (callback allowedEnv secret now₂ q exch₂ uinfo₂
      (callback allowedEnv secret now₁ q exch₁ uinfo₁ states users₁).states
      users₂).exchangeAttempted = false := by
  have hkey := getState_delete_self states (q.state.getD "")
  unfold callback
  simp only [herr, hcode, hstate, hpresent, hfresh, Bool.false_eq_true, Bool.true_eq_false,
    or_self, if_false, ite_false]
  cases hex : exchangeCodeForToken exch₁ with
  | error msg =>
    simp [hex, hkey, cbReject]
  | ok tr =>
    cases hui : getUserInfo uinfo₁ with
    | error msg =>
      simp [hui, hkey, cbReject]
    | ok info =>
      cases hall : emailAllowed allowedEnv info.email with
      | false => simp [hui, hall, hkey, cbReject]
      | true =>
        cases hlk : getUserByUsername users₁ info.sub with
        | none => simp [hui, hall, hlk, hkey, cbReject]
        | some u => simp [hui, hall, hlk, hkey, cbReject]

/-- C1 witness: a concrete issued, unexpired state token is consumed by the
first callback and rejected on replay. -/
theorem state_token_single_use_witness :
    truthy (some "cd") = true ∧
    (callback none "s" 5 ⟨some "cd", some "st", none, none⟩
      (.ok ⟨"at", none⟩) (.ok ⟨"sub1", some "admin@madfam.io", none⟩)
      [("st", 10)] ⟨[], 1⟩).exchangeAttempted = true ∧
    (callback none "s" 6 ⟨some "cd", some "st", none, none⟩
      (.ok ⟨"at", none⟩) (.ok ⟨"sub1", some "admin@madfam.io", none⟩)
      (callback none "s" 5 ⟨some "cd", some "st", none, none⟩
        (.ok ⟨"at", none⟩) (.ok ⟨"sub1", some "admin@madfam.io", none⟩)
        [("st", 10)] ⟨[], 1⟩).states ⟨[], 1⟩).redirect = "/?error=invalid_state" := by
  have h := state_token_single_use none "s" 5 6 ⟨some "cd", some "st", none, none⟩
    (.ok ⟨"at", none⟩) (.ok ⟨"at", none⟩)
    (.ok ⟨"sub1", some "admin@madfam.io", none⟩) (.ok ⟨"sub1", some "admin@madfam.io", none⟩)
    [("st", 10)] ⟨[], 1⟩ ⟨[], 1⟩ 10
    (by decide) (by decide) (by decide) (by decide) (by decide)
  exact ⟨by decide, h.1, h.2.2.1⟩

/-- C7: a callback presenting a state token whose expiry has passed is
rejected with the `state_expired` redirect and never reaches the token
exchange, even though the entry is still physically present in the store;
the stale entry is also deleted. -/
theorem expired_state_rejected
    (allowedEnv : Option String) (secret : String) (now : Nat) (q : CbQuery)
    (exch : FetchOutcome TokenResponse) (uinfo : FetchOutcome UserInfo)
    (states : StateStore) (users : UserStore) (e : Nat)
    (herr : truthy q.error = false)
    (hcode : truthy q.code = true)
    (hstate : truthy q.state = true)
    (hpresent : getState states (q.state.getD "") = some e)
    (hexpired : e < now) :
    (callback allowedEnv secret now q exch uinfo states users).redirect
      = "/?error=state_expired" ∧
    (callback allowedEnv secret now q exch uinfo states users).exchangeAttempted = false ∧
    (callback allowedEnv secret now q exch uinfo states users).users = users ∧
    getState (callback allowedEnv secret now q exch uinfo states users).states
      (q.state.getD "") = none := by
  have hkey := getState_delete_self states (q.state.getD "")
  unfold callback
  simp [herr, hcode, hstate, hpresent, hexpired, cbReject, hkey]

/-- C7 witness: a concrete state entry past its expiry is rejected with
the expiry error and no exchange is attempted. -/
theorem expired_state_rejected_witness :
    (10 : Nat) < 999 ∧
    (callback none "s" 999 ⟨some "cd", some "st", none, none⟩
      (.ok ⟨"at", none⟩) (.ok ⟨"sub1", some "admin@madfam.io", none⟩)
      [("st", 10)] ⟨[], 1⟩).redirect = "/?error=state_expired" ∧
    (callback none "s" 999 ⟨some "cd", some "st", none, none⟩
      (.ok ⟨"at", none⟩) (.ok ⟨"sub1", some "admin@madfam.io", none⟩)
      [("st", 10)] ⟨[], 1⟩).exchangeAttempted = false := by
  have h := expired_state_rejected none "s" 999 ⟨some "cd", some "st", none, none⟩
    (.ok ⟨"at", none⟩) (.ok ⟨"sub1", some "admin@madfam.io", none⟩)
    [("st", 10)] ⟨[], 1⟩ 10 (by decide) (by decide) (by decide) (by decide) (by decide)
  exact ⟨by decide, h.1, h.2.1⟩

/-- C2: when the code exchange and profile fetch succeed but the resolved
email is not in the allow-list, the user store is unchanged (no account
created, no `lastLoginAt` update), no session token is issued, and the
response is the access-denied error redirect. -/
theorem denied_email_no_side_effects
    (allowedEnv : Option String) (secret : String) (now : Nat) (q : CbQuery)
    (tokenResponse : TokenResponse) (info : UserInfo)
    (states : StateStore) (users : UserStore) (e : Nat)
    (herr : truthy q.error = false)
    (hcode : truthy q.code = true)
    (hstate : truthy q.state = true)
    (hpresent : getState states (q.state.getD "") = some e)
    (hfresh : ¬ e < now)
    (hdenied : emailAllowed allowedEnv info.email = false) :
    (callback allowedEnv secret now q (.ok tokenResponse) (.ok info) states users).users
      = users ∧
    (callback allowedEnv secret now q (.ok tokenResponse) (.ok info) states users).tokenIssued
      = none ∧
    (callback allowedEnv secret now q (.ok tokenResponse) (.ok info) states users).createdUser
      = false ∧
    (callback allowedEnv secret now q (.ok tokenResponse) (.ok info) states users).redirect
      = "/?error=" ++ encodeURIComponent
          "Access denied. Your email is not authorized to use this application." := by
  unfold callback
  simp [herr, hcode, hstate, hpresent, hfresh, hdenied, exchangeCodeForToken, getUserInfo]

/-- C2 witness: a concrete profile email outside the default allow-list is
turned away with no store change and no token. -/
theorem denied_email_no_side_effects_witness :
    emailAllowed none (some "evil@attacker.io") = false ∧
    (callback none "s" 5 ⟨some "cd", some "st", none, none⟩
      (.ok ⟨"at", none⟩) (.ok ⟨"sub1", some "evil@attacker.io", none⟩)
      [("st", 10)] ⟨[], 1⟩).users = ⟨[], 1⟩ ∧
    (callback none "s" 5 ⟨some "cd", some "st", none, none⟩
      (.ok ⟨"at", none⟩) (.ok ⟨"sub1", some "evil@attacker.io", none⟩)
      [("st", 10)] ⟨[], 1⟩).tokenIssued = none := by
  have h := denied_email_no_side_effects none "s" 5 ⟨some "cd", some "st", none, none⟩
    ⟨"at", none⟩ ⟨"sub1", some "evil@attacker.io", none⟩
    [("st", 10)] ⟨[], 1⟩ 10 (by decide) (by decide) (by decide) (by decide) (by decide)
    (by decide)
  exact ⟨by decide, h.1, h.2.1⟩

/-- C9: an accepted federated callback resolves the local account keyed by
the provider's stable `sub` claim — the resolved user's username is the
profile's `sub`, independently of the profile email — creating it when no
account with that username exists; hence two accepted callbacks whose
profiles share an email but differ in `sub` resolve to accounts with
different usernames, i.e. distinct local accounts. -/
theorem identity_keyed_by_subject
    (allowedEnv : Option String) (secret : String) (now₁ now₂ : Nat) (q₁ q₂ : CbQuery)
    (tr₁ tr₂ : TokenResponse) (info₁ info₂ : UserInfo)
    (states₁ states₂ : StateStore) (users₁ users₂ : UserStore) (e₁ e₂ : Nat)
    (herr₁ : truthy q₁.error = false) (hcode₁ : truthy q₁.code = true)
    (hstate₁ : truthy q₁.state = true)
    (hpresent₁ : getState states₁ (q₁.state.getD "") = some e₁) (hfresh₁ : ¬ e₁ < now₁)
    (hallow₁ : emailAllowed allowedEnv info₁.email = true)
    (herr₂ : truthy q₂.error = false) (hcode₂ : truthy q₂.code = true)
    (hstate₂ : truthy q₂.state = true)
    (hpresent₂ : getState states₂ (q₂.state.getD "") = some e₂) (hfresh₂ : ¬ e₂ < now₂)
    (hallow₂ : emailAllowed allowedEnv info₂.email = true)
    (hemail : info₁.email = info₂.email)
    (hsub : info₁.sub ≠ info₂.sub) :
    (∃ u, (callback allowedEnv secret now₁ q₁ (.ok tr₁) (.ok info₁) states₁ users₁).resolvedUser
        = some u ∧ u.username = info₁.sub) ∧
    (getUserByUsername users₁ info₁.sub = none →
      (callback allowedEnv secret now₁ q₁ (.ok tr₁) (.ok info₁) states₁ users₁).createdUser
        = true) ∧
    (∀ u₁ u₂,
      (callback allowedEnv secret now₁ q₁ (.ok tr₁) (.ok info₁) states₁ users₁).resolvedUser
        = some u₁ →
      (callback allowedEnv secret now₂ q₂ (.ok tr₂) (.ok info₂) states₂ users₂).resolvedUser
        = some u₂ →
      u₁.username ≠ u₂.username) := by
  have key₁ : ∃ u, (callback allowedEnv secret now₁ q₁ (.ok tr₁) (.ok info₁) states₁
      users₁).resolvedUser = some u ∧ u.username = info₁.sub := by
    unfold callback
    simp [herr₁, hcode₁, hstate₁, hpresent₁, hfresh₁, hallow₁, exchangeCodeForToken, getUserInfo]
    cases hlk : getUserByUsername users₁ info₁.sub with
    | none => simp [hlk, createUser]
    | some u => simp [hlk, getUserByUsername_username hlk]
  have key₂ : ∃ u, (callback allowedEnv secret now₂ q₂ (.ok tr₂) (.ok info₂) states₂
      users₂).resolvedUser = some u ∧ u.username = info₂.sub := by
    unfold callback
    simp [herr₂, hcode₂, hstate₂, hpresent₂, hfresh₂, hallow₂, exchangeCodeForToken, getUserInfo]
    cases hlk : getUserByUsername users₂ info₂.sub with
    | none => simp [hlk, createUser]
    | some u => simp [hlk, getUserByUsername_username hlk]
  refine ⟨key₁, ?_, ?_⟩
  · intro hnone
    unfold callback
    simp [herr₁, hcode₁, hstate₁, hpresent₁, hfresh₁, hallow₁, hnone,
      exchangeCodeForToken, getUserInfo]
  · intro u₁ u₂ h₁ h₂
    obtain ⟨v₁, hv₁, hn₁⟩ := key₁
    obtain ⟨v₂, hv₂, hn₂⟩ := key₂
    rw [h₁] at hv₁
    rw [h₂] at hv₂
    cases Option.some.inj hv₁
    cases Option.some.inj hv₂
    rw [hn₁, hn₂]
    exact hsub

/-- C9 witness: two accepted callbacks with the same allow-listed email but
different subjects resolve to accounts with different usernames. -/
theorem identity_keyed_by_subject_witness :
    (∃ u, (callback none "s" 5 ⟨some "cd", some "st", none, none⟩
      (.ok ⟨"at", none⟩) (.ok ⟨"subA", some "admin@madfam.io", none⟩)
      [("st", 10)] ⟨[], 1⟩).resolvedUser = some u ∧ u.username = "subA") ∧
    (∀ u₁ u₂,
      (callback none "s" 5 ⟨some "cd", some "st", none, none⟩
        (.ok ⟨"at", none⟩) (.ok ⟨"subA", some "admin@madfam.io", none⟩)
        [("st", 10)] ⟨[], 1⟩).resolvedUser = some u₁ →
      (callback none "s" 6 ⟨some "cd", some "st2", none, none⟩
        (.ok ⟨"at", none⟩) (.ok ⟨"subB", some "admin@madfam.io", none⟩)
        [("st2", 10)] ⟨[], 1⟩).resolvedUser = some u₂ →
      u₁.username ≠ u₂.username) := by
  have h := identity_keyed_by_subject none "s" 5 6
    ⟨some "cd", some "st", none, none⟩ ⟨some "cd", some "st2", none, none⟩
    ⟨"at", none⟩ ⟨"at", none⟩
    ⟨"subA", some "admin@madfam.io", none⟩ ⟨"subB", some "admin@madfam.io", none⟩
    [("st", 10)] [("st2", 10)] ⟨[], 1⟩ ⟨[], 1⟩ 10 10
    (by decide) (by decide) (by decide) (by decide) (by decide) (by decide)
    (by decide) (by decide) (by decide) (by decide) (by decide) (by decide)
    (by decide) (by decide)
  exact ⟨h.1, h.2.2⟩

/-- C10: the allow-list gate is case-insensitive — an email equal, after
lowercasing, to a trimmed-and-lowercased configured entry passes the gate —
and a missing profile email is compared as the empty string, passing
exactly when the empty string itself is among the processed allow-list
entries. -/
theorem allowlist_case_insensitive
    (envVar : Option String) (entry rawEmail : String)
    (hmem : entry ∈ jsSplit (Char.ofNat 44) (jsOrDefault envVar "admin@madfam.io"))
    (hcase : jsToLower rawEmail = jsToLower (jsTrim entry)) :
    emailAllowed envVar (some rawEmail) = true ∧
    ∀ env₂ : Option String,
      emailAllowed env₂ none = (allowedEmailsList env₂).contains "" := by
  constructor
  · have hmem2 : jsToLower (jsTrim entry) ∈ allowedEmailsList envVar := by
      unfold allowedEmailsList
      exact List.mem_map_of_mem (fun e => jsToLower (jsTrim e)) hmem
    unfold emailAllowed
    rw [profileEmail_some, hcase]
    exact List.elem_iff.mpr hmem2
  · intro env₂
    rfl

/-- C10 witness: an upper-cased variant of a padded configured entry passes
the gate, and with the default allow-list a missing email is rejected. -/
theorem allowlist_case_insensitive_witness :
    emailAllowed (some " Admin@Example.COM ,b@c") (some "ADMIN@example.com") = true ∧
    emailAllowed none none = false := by
  have h := allowlist_case_insensitive (some " Admin@Example.COM ,b@c")
    " Admin@Example.COM " "ADMIN@example.com" (by decide) (by decide)
  refine ⟨h.1, ?_⟩
  rw [h.2 none]
  decide

/-- C6: a bearer token that verifies (signature and expiry) but whose
subject id no longer resolves to a user in the Credential Store is
rejected with HTTP 401. -/
theorem token_for_deleted_user_rejected
    (env : AuthEnv) (now : Nat) (users : UserStore) (authHeader : Option String)
    (tok : String) (c : JwtClaims)
    (hplat : env.platformMode = false)
    (htok : extractToken authHeader = some tok)
    (hne : tok ≠ "")
    (hver : jwtVerify env.jwtSecret now tok = some c)
    (hmiss : getUserById users c.userId = none) :
    authenticateToken env now users authHeader
      = .reject 401 "Invalid token. User not found." := by
  unfold authenticateToken
  rw [hplat]
  simp [htok, (truthy_some_iff tok).mpr hne, hver, hmiss]

/-- C6 witness: a concretely signed, unexpired token for a user id absent
from an empty store is rejected 401. -/
theorem token_for_deleted_user_rejected_witness :
    jwtVerify "sec" 0 "5.alice.100.sec" = some ⟨5, "alice", 100⟩ ∧
    authenticateToken ⟨false, false, false, "sec"⟩ 0 ⟨[], 1⟩
      (some "Bearer 5.alice.100.sec") = .reject 401 "Invalid token. User not found." := by
  refine ⟨by decide, ?_⟩
  exact token_for_deleted_user_rejected ⟨false, false, false, "sec"⟩ 0 ⟨[], 1⟩
    (some "Bearer 5.alice.100.sec") "5.alice.100.sec" ⟨5, "alice", 100⟩
    (by decide) (by decide) (by decide) (by decide) (by decide)

/-- C8: the logout route reports success for every combination of bearer
token presence, client configuration, and revocation outcome; a revocation
failure is swallowed, never propagated. -/
theorem logout_always_succeeds (cfg : JanuaConfig) (revokeResult : Except String Unit)
    (authHeader : Option String) :
    (logout cfg revokeResult authHeader).success = true ∧
    (logout cfg revokeResult authHeader).message = "Logged out successfully" := by
  unfold logout
  cases revokeResult with
  | ok _ =>
    by_cases h : (truthy (extractToken authHeader) && isConfigured cfg) = true <;> simp [h]
  | error e =>
    by_cases h : (truthy (extractToken authHeader) && isConfigured cfg) = true <;> simp [h]

/-- C3 counterexample: a request carrying a bearer token that fails
verification is rejected with HTTP status 403, not the claimed 401. -/
theorem invalid_token_status_counterexample :
    authenticateToken ⟨false, false, false, "sec"⟩ 0 ⟨[], 1⟩ (some "Bearer bogus")
      = .reject 403 "Invalid token" ∧ (403 : Nat) ≠ 401 :=
  ⟨by decide, by decide⟩

/-- C3 (amended): with platform mode disabled, a request with no
Authorization header is rejected with HTTP 401; a request whose extracted
bearer token fails signature or expiry verification is rejected with
HTTP 403, not 401. -/
theorem auth_reject_statuses
    (env : AuthEnv) (now : Nat) (users : UserStore) (authHeader : Option String)
    (tok : String)
    (hplat : env.platformMode = false) :
    authenticateToken env now users none
      = .reject 401 "Access denied. No token provided." ∧
    (extractToken authHeader = some tok → tok ≠ "" →
      jwtVerify env.jwtSecret now tok = none →
      authenticateToken env now users authHeader = .reject 403 "Invalid token") := by
  constructor
  · unfold authenticateToken
    rw [hplat]
    simp [extractToken, truthy]
  · intro htok hne hver
    unfold authenticateToken
    rw [hplat]
    simp [htok, (truthy_some_iff tok).mpr hne, hver]

/-- C3 witness: concrete missing-header and bad-token requests get 401
and 403 respectively. -/
theorem auth_reject_statuses_witness :
    authenticateToken ⟨false, false, false, "sec"⟩ 0 ⟨[], 1⟩ none
      = .reject 401 "Access denied. No token provided." ∧
    authenticateToken ⟨false, false, false, "sec"⟩ 0 ⟨[], 1⟩ (some "Bearer nope")
      = .reject 403 "Invalid token" := by
  have h := auth_reject_statuses ⟨false, false, false, "sec"⟩ 0 ⟨[], 1⟩
    (some "Bearer nope") "nope" (by decide)
  exact ⟨h.1, h.2 (by decide) (by decide) (by decide)⟩

/-- C4 counterexample: an upstream failure during code exchange whose body
is `invalid_grant` produces a redirect in which that upstream text appears
verbatim (URL-encoding leaves it unchanged). -/
theorem upstream_error_leak_counterexample :
    strContains (callback none "s" 5 ⟨some "cd", some "st", none, none⟩
      (.httpError "invalid_grant") (.ok ⟨"sub1", some "admin@madfam.io", none⟩)
      [("st", 10)] ⟨[], 1⟩).redirect "invalid_grant" = true ∧
    (callback none "s" 5 ⟨some "cd", some "st", none, none⟩
      (.httpError "invalid_grant") (.ok ⟨"sub1", some "admin@madfam.io", none⟩)
      [("st", 10)] ⟨[], 1⟩).redirect
      = "/?error=Token%20exchange%20failed%3A%20invalid_grant" :=
  ⟨by decide, by decide⟩

/-- C4 (amended): every callback that issues no session token redirects to
the application root with an error indicator in the query string, and
conversely; but for an upstream failure during code exchange or profile
fetch that indicator is the URL-encoding of the thrown message —
`Token exchange failed: <upstream body>` respectively
`Failed to get user info: <upstream body>` — embedding the upstream
response body rather than an opaque hint. -/
theorem error_redirect_shape
    (allowedEnv : Option String) (secret : String) (now : Nat) (q : CbQuery)
    (exch : FetchOutcome TokenResponse) (uinfo : FetchOutcome UserInfo)
    (states : StateStore) (users : UserStore) :
    ((callback allowedEnv secret now q exch uinfo states users).tokenIssued = none ↔
      errRedirect (callback allowedEnv secret now q exch uinfo states users).redirect
        = true) ∧
    (∀ (body : String) (e : Nat), truthy q.error = false → truthy q.code = true →
      truthy q.state = true → getState states (q.state.getD "") = some e → ¬ e < now →
      (callback allowedEnv secret now q (.httpError body) uinfo states users).redirect
        = "/?error=" ++ encodeURIComponent ("Token exchange failed: " ++ body)) ∧
    (∀ (tokenResponse : TokenResponse) (body : String) (e : Nat),
      truthy q.error = false → truthy q.code = true →
      truthy q.state = true → getState states (q.state.getD "") = some e → ¬ e < now →
      (callback allowedEnv secret now q (.ok tokenResponse) (.httpError body)
          states users).redirect
        = "/?error=" ++ encodeURIComponent ("Failed to get user info: " ++ body)) := by
  refine ⟨?_, ?_, ?_⟩
  · unfold callback
    by_cases h1 : truthy q.error = true
    · simp [h1, cbReject, errRedirect_append]
    · by_cases h2 : truthy q.code = false ∨ truthy q.state = false
      · simp [h1, h2, cbReject, errRedirect_missing]
      · simp only [h1, h2, Bool.false_eq_true, if_false, ite_false]
        cases hg : getState states (q.state.getD "") with
        | none => simp [hg, cbReject, errRedirect_invalid]
        | some e =>
          by_cases hexp : e < now
          · simp [hg, hexp, cbReject, errRedirect_expired]
          · simp [hg, hexp]
            cases hex : exchangeCodeForToken exch with
            | error msg => simp [hex, errRedirect_append]
            | ok tr =>
              cases hui : getUserInfo uinfo with
              | error msg => simp [hex, hui, errRedirect_append]
              | ok info =>
                by_cases hall : emailAllowed allowedEnv info.email = false
                · simp [hex, hui, hall, errRedirect_append]
                · cases hlk : getUserByUsername users info.sub with
                  | none => simp [hex, hui, hall, hlk, errRedirect_token]
                  | some u => simp [hex, hui, hall, hlk, errRedirect_token]
  · intro body e herr hcode hstate hpresent hfresh
    unfold callback
    simp [herr, hcode, hstate, hpresent, hfresh, exchangeCodeForToken]
  · intro tokenResponse body e herr hcode hstate hpresent hfresh
    unfold callback
    simp [herr, hcode, hstate, hpresent, hfresh, exchangeCodeForToken, getUserInfo]

/-- C4 witness: a concrete upstream body is wrapped in the thrown message
and URL-encoded into the redirect, for a code-exchange failure and for a
profile-fetch failure. -/
theorem error_redirect_shape_witness :
    (callback none "s" 5 ⟨some "cd", some "st", none, none⟩
      (.httpError "bad_request") (.ok ⟨"sub1", some "admin@madfam.io", none⟩)
      [("st", 10)] ⟨[], 1⟩).redirect
      = "/?error=" ++ encodeURIComponent ("Token exchange failed: " ++ "bad_request") ∧
    (callback none "s" 5 ⟨some "cd", some "st", none, none⟩
      (.ok ⟨"at", none⟩) (.httpError "server_error")
      [("st", 10)] ⟨[], 1⟩).redirect
      = "/?error=" ++ encodeURIComponent ("Failed to get user info: " ++ "server_error") := by
  have h := error_redirect_shape none "s" 5 ⟨some "cd", some "st", none, none⟩
    (.httpError "bad_request") (.ok ⟨"sub1", some "admin@madfam.io", none⟩)
    [("st", 10)] ⟨[], 1⟩
  have h2 := error_redirect_shape none "s" 5 ⟨some "cd", some "st", none, none⟩
    (.ok ⟨"at", none⟩) (.httpError "server_error")
    [("st", 10)] ⟨[], 1⟩
  exact ⟨h.2.1 "bad_request" 10 (by decide) (by decide) (by decide) (by decide) (by decide),
    h2.2.2 ⟨"at", none⟩ "server_error" 10
      (by decide) (by decide) (by decide) (by decide) (by decide)⟩

set_option maxRecDepth 8000 in
/-- C5 counterexample: with client id and secret unset the authorization-URL
builder does not fail — it returns a URL, embedding the JS interpolation
`client_id=undefined`. -/
theorem auth_url_no_config_check_counterexample :
    isConfigured (mkJanuaClient none none none none) = false ∧
    getAuthorizationUrl (mkJanuaClient none none none none) "abc"
      = "https://auth.madfam.io/api/v1/oauth/authorize?client_id=undefined&redirect_uri=https%3A%2F%2Fagents.madfam.io%2Fauth%2Fcallback&response_type=code&scope=openid+profile+email+agent%3Aview+agent%3Acontrol&state=abc" :=
  ⟨by decide, by decide⟩

/-- C5 (amended): the configuration guard lives in the login route, not the
URL builder — when the client is unconfigured the route responds with the
500 configuration error and records no handshake state, so no
authorization URL is delivered and no network call can follow. -/
theorem login_unconfigured_config_error
    (cfg : JanuaConfig) (stateTok : String) (now : Nat) (states : StateStore)
    (h : isConfigured cfg = false) :
    (loginRoute cfg stateTok now states).1
      = .configError "Janua OAuth2 not configured"
          "Set JANUA_CLIENT_ID and JANUA_CLIENT_SECRET environment variables" ∧
    (loginRoute cfg stateTok now states).2 = states := by
  unfold loginRoute
  simp [h]

/-- C5 witness: a client with only a secret set is unconfigured and the
login route rejects with the configuration error, leaving the state store
unchanged. -/
theorem login_unconfigured_config_error_witness :
    isConfigured (mkJanuaClient none none (some "sec") none) = false ∧
    (loginRoute (mkJanuaClient none none (some "sec") none) "st" 0 []).1
      = .configError "Janua OAuth2 not configured"
          "Set JANUA_CLIENT_ID and JANUA_CLIENT_SECRET environment variables" := by
  have h := login_unconfigured_config_error (mkJanuaClient none none (some "sec") none)
    "st" 0 [] (by decide)
  exact ⟨by decide, h.1⟩

end ClaudeCodeUI
